import Mathlib

/-!
Shallow embedding of the puppini-bridge utilities and proofs about their
claimed properties.

The repository has three small utilities built on DuckDB:
* `src/load_data_duckdb.py` — `load_csv_to_duckdb`: bulk-load CSV files into
  tables, skipping missing files and refusing to overwrite an existing
  database unless forced;
* `src/infer_schemas.py` — `infer_schemas_and_generate_puppini_bridge_sql`
  and `generate_puppini_bridge_sql`: infer each table's column schema and
  synthesize one `CREATE OR REPLACE TABLE puppini_bridge AS ... UNION ALL ...`
  statement;
* `src/erd.py` — `generate_mermaid_erd`: render the catalog's column listing
  and foreign keys as a Mermaid `erDiagram` text block.

The database engine is external: it is modelled by explicit state (an
association list of tables, each an ordered association list of columns) and
by a trace of boundary events (connections opened, SQL statements executed).
Python dicts are modelled by association lists with insertion-order dict
update, and Python exceptions by `Except`/`Option` results.
-/

namespace PuppiniBridge

/-- An ordered mapping from column name to declared data type, as DuckDB's
`PRAGMA table_info` reports it in ordinal order (row fields: `col[1]` the
name, `col[2]` the type). -/
abbrev TableSchema := List (String × String)

/-- The tables of one database file, in creation order, each with its
schema. -/
abbrev DBState := List (String × TableSchema)

/-- The schema map the bridge synthesizer builds: a Python dict from table
name to an ordered column-name-to-type mapping. -/
abbrev Schemas := List (String × TableSchema)

/-- One observable call on the DuckDB boundary: opening a connection to a
database path, or executing one SQL statement on it. -/
inductive DBEvent
  | connect (path : String)
  | exec (sql : String)
deriving DecidableEq

/-- Python `sep.join(xs)`: the elements of `xs` concatenated with `sep`
between consecutive elements. -/
def joinSep (sep : String) : List String → String
  | [] => ""
  | [q] => q
  | q :: q2 :: qs => q ++ sep ++ joinSep sep (q2 :: qs)

/-- Python dict assignment `d[k] = v` on an insertion-ordered dict: an
existing key keeps its position and gets the new value, a new key is
appended at the end. -/
def dictInsert {α : Type} (k : String) (v : α) : List (String × α) → List (String × α)
  | [] => [(k, v)]
  | p :: rest => if p.1 = k then (k, v) :: rest else p :: dictInsert k v rest

/-- The `if table not in tables: tables[table] = []` / `tables[table].append(v)`
idiom of `src/erd.py`: append `v` to the list stored at `k`, inserting the
key at the end with `[v]` when it is new. -/
def dictAppend {α : Type} (k : String) (v : α) :
    List (String × List α) → List (String × List α)
  | [] => [(k, [v])]
  | p :: rest => if p.1 = k then (p.1, p.2 ++ [v]) :: rest else p :: dictAppend k v rest

/-! ## src/infer_schemas.py -/

/-- The per-table selection of `generate_puppini_bridge_sql`
(src/infer_schemas.py line 64): the f-string
`SELECT CAST({primary_key} AS VARCHAR) AS _KEY_{table_name},
'{table_name}' AS Stage FROM {table_name}`. -/
def selectQuery (table_name : String) (primary_key : String) : String :=
  "SELECT CAST(" ++ primary_key ++ " AS VARCHAR) AS _KEY_" ++ table_name ++
    ", \x27" ++ table_name ++ "\x27 AS Stage FROM " ++ table_name

/-- The `union_queries` list of `generate_puppini_bridge_sql`: one
`selectQuery` per table, keyed on the table's first column
(`list(columns.keys())[0]`). `none` models the `IndexError` Python raises
there when a table's column dict is empty. -/
def selectQueriesOf : Schemas → Option (List String)
  | [] => some []
  | (table_name, columns) :: rest =>
    match columns with
    | [] => none
    | (c, _) :: _ =>
      match selectQueriesOf rest with
      | none => none
      | some qs => some (selectQuery table_name c :: qs)

/-- `generate_puppini_bridge_sql` from src/infer_schemas.py: join the
per-table selections with `UNION ALL` and wrap the union in
`CREATE OR REPLACE TABLE puppini_bridge AS ...`; `none` models the
`IndexError` on a table with no columns. -/
def generate_puppini_bridge_sql (schemas : Schemas) : Option String :=
  (selectQueriesOf schemas).map fun union_queries =>
    "CREATE OR REPLACE TABLE puppini_bridge AS " ++ joinSep " UNION ALL " union_queries

/-- `PRAGMA table_info(t)` against database state `st`: the table's columns
in ordinal order, or a catalog error when no table of that name exists. -/
def pragma_table_info (st : DBState) (t : String) : Except String TableSchema :=
  match st.find? (fun p => p.1 = t) with
  | some p => Except.ok p.2
  | none => Except.error ("Catalog Error: Table with name " ++ t ++ " does not exist!")

/-- The schema-inference loop of
`infer_schemas_and_generate_puppini_bridge_sql` (src/infer_schemas.py lines
43-49): for each table, execute `PRAGMA table_info(table)` and store the
column-name-to-type mapping under the table's name in the `schemas` dict.
The second component is the trace of executed queries; an introspection
failure propagates unmodified. -/
def inferLoop (st : DBState) : List String → Schemas → Except String Schemas × List DBEvent
  | [], acc => (Except.ok acc, [])
  | t :: rest, acc =>
    let ev := DBEvent.exec ("PRAGMA table_info(" ++ t ++ ")")
    match pragma_table_info st t with
    | Except.error e => (Except.error e, [ev])
    | Except.ok columns =>
      let r := inferLoop st rest (dictInsert t columns acc)
      (r.1, ev :: r.2)

/-- `infer_schemas_and_generate_puppini_bridge_sql` from src/infer_schemas.py:
raise `FileNotFoundError` when the database file does not exist, otherwise
connect and infer each listed table's schema. The filesystem is modelled as
a map from path to the database contents stored at that path (`none`: no
such file); the second component is the trace of boundary events. -/
def infer_schemas_and_generate (fs : String → Option DBState)
    (tables : List String) (database_path : String) :
    Except String Schemas × List DBEvent :=
  match fs database_path with
  | none =>
      (Except.error ("Database file \x27" ++ database_path ++ "\x27 does not exist!"), [])
  | some st =>
      let r := inferLoop st tables []
      (r.1, DBEvent.connect database_path :: r.2)

/-! ## src/load_data_duckdb.py -/

/-- `read_csv_auto` schema inference at the filesystem boundary: a map from
CSV file path to the schema inferred from that file (`none`: the file does
not exist, the `csv_path.exists()` check fails). -/
structure CsvEnv where
  csvSchema : String → Option TableSchema

/-- The engine's semantics of `CREATE TABLE t AS ...` (no `OR REPLACE`):
a catalog error when a table of that name already exists, otherwise the new
table is appended to the database state. -/
def createTable (t : String) (sch : TableSchema) (st : DBState) : Except String DBState :=
  if st.any (fun p => p.1 = t) then
    Except.error ("Catalog Error: Table with name \"" ++ t ++ "\" already exists!")
  else Except.ok (st ++ [(t, sch)])

/-- The per-entry loop of `load_csv_to_duckdb` (src/load_data_duckdb.py
lines 31-45): an entry whose CSV file does not exist is logged and skipped,
otherwise `CREATE TABLE {table} AS SELECT * FROM read_csv_auto('{path}')`
is executed; an execution error propagates unmodified. The second component
is the trace of executed statements. -/
def loadLoop (env : CsvEnv) :
    List (String × String) → DBState → Except String DBState × List DBEvent
  | [], st => (Except.ok st, [])
  | (table_name, csv_path) :: rest, st =>
    match env.csvSchema csv_path with
    | none => loadLoop env rest st
    | some sch =>
      let q := DBEvent.exec ("CREATE TABLE " ++ table_name ++
        " AS SELECT * FROM read_csv_auto(\x27" ++ csv_path ++ "\x27)")
      match createTable table_name sch st with
      | Except.error e => (Except.error e, [q])
      | Except.ok st2 =>
        let r := loadLoop env rest st2
        (r.1, q :: r.2)

/-- `load_csv_to_duckdb` from src/load_data_duckdb.py: when the database
file already exists and `force` is false, connect to it and return it
unchanged; otherwise connect (an empty database when the file is missing,
the existing contents otherwise) and run the per-entry load loop. -/
def load_csv_to_duckdb (env : CsvEnv) (csv_files : List (String × String)) (force : Bool)
    (database_path : String) (fs : String → Option DBState) :
    Except String DBState × List DBEvent :=
  if (fs database_path).isSome && !force then
    (Except.ok ((fs database_path).getD []), [DBEvent.connect database_path])
  else
    let r := loadLoop env csv_files ((fs database_path).getD [])
    (r.1, DBEvent.connect database_path :: r.2)

/-! ## src/erd.py -/

/-- One rendered column line of `generate_mermaid_erd`:
`f"{data_type.lower()} {column}"`. -/
def columnLine (column data_type : String) : String := data_type.toLower ++ " " ++ column

/-- The `tables` dict of `generate_mermaid_erd` (src/erd.py lines 63-67):
group the column-listing rows by table in first-seen order, appending one
rendered column line per row. -/
def groupTables (table_columns : List (String × String × String)) :
    List (String × List String) :=
  table_columns.foldl (fun acc r => dictAppend r.1 (columnLine r.2.1 r.2.2) acc) []

/-- One table's block of lines: `  {table} {`, one indented line per
column, then `  }`. -/
def tableBlock (table : String) (columns : List String) : List String :=
  ("  " ++ table ++ " \x7b") :: (columns.map (fun col => "    " ++ col) ++ ["  \x7d"])

/-- One relationship line (src/erd.py lines 76-78): the f-string
`  {from_table} }o--o{ {to_table} : "{from_column} -> {to_column}"`. -/
def relationshipLine (fk : String × String × String × String) : String :=
  "  " ++ fk.1 ++ " \x7do--o\x7b " ++ fk.2.2.1 ++ " : \"" ++ fk.2.1 ++ " -> " ++
    fk.2.2.2 ++ "\""

/-- The `mermaid_diagram` line list of `generate_mermaid_erd`: the
`erDiagram` header, one block per grouped table, then one relationship line
per foreign-key tuple. -/
def mermaid_diagram (table_columns : List (String × String × String))
    (foreign_keys : List (String × String × String × String)) : List String :=
  (["erDiagram"] ++ (groupTables table_columns).flatMap (fun p => tableBlock p.1 p.2))
    ++ foreign_keys.map relationshipLine

/-- `generate_mermaid_erd` from src/erd.py, as a function of the two catalog
query results: `"\n".join(mermaid_diagram)`. -/
def generate_mermaid_erd (table_columns : List (String × String × String))
    (foreign_keys : List (String × String × String × String)) : String :=
  joinSep "\n" (mermaid_diagram table_columns foreign_keys)

/-! ## Helper lemmas -/

/-- An element of `qs` occurs, as a character sequence, inside
`joinSep sep qs`. -/
theorem mem_joinSep_chars (sep q : String) :
    ∀ qs : List String, q ∈ qs → q.data <:+: (joinSep sep qs).data
  | [], h => absurd h (List.not_mem_nil q)
  | [x], h => by
    rcases List.mem_singleton.mp h with rfl
    exact List.infix_refl _
  | x :: y :: ys, h => by
    rcases List.mem_cons.mp h with rfl | hmem
    · show q.data <:+: (q ++ sep ++ joinSep sep (y :: ys)).data
      rw [String.data_append, String.data_append, List.append_assoc]
      exact (List.prefix_append q.data _).isInfix
    · show q.data <:+: (x ++ sep ++ joinSep sep (y :: ys)).data
      rw [String.data_append]
      exact (mem_joinSep_chars sep q (y :: ys) hmem).trans
        (List.suffix_append _ _).isInfix

/-- The first element of a nonempty list is a prefix of its `joinSep`. -/
theorem head_joinSep_prefix (sep x : String) (rest : List String) :
    x.data <+: (joinSep sep (x :: rest)).data := by
  cases rest with
  | nil => exact List.prefix_refl _
  | cons y ys =>
    show x.data <+: (x ++ sep ++ joinSep sep (y :: ys)).data
    rw [String.data_append, String.data_append, List.append_assoc]
    exact List.prefix_append _ _

/-- `selectQueriesOf` fails exactly when some table of the schema map has an
empty column mapping. -/
theorem selectQueriesOf_eq_none_iff :
    ∀ schemas : Schemas, selectQueriesOf schemas = none ↔ ∃ p ∈ schemas, p.2 = []
  | [] => by simp [selectQueriesOf]
  | (t, []) :: rest => by
    simp [selectQueriesOf]
  | (t, (c1, c2) :: cs) :: rest => by
    have ih := selectQueriesOf_eq_none_iff rest
    cases hr : selectQueriesOf rest with
    | none =>
      simp only [selectQueriesOf, hr, true_iff]
      obtain ⟨p, hp, hp2⟩ := ih.mp hr
      exact ⟨p, List.mem_cons_of_mem _ hp, hp2⟩
    | some qs =>
      rw [hr] at ih
      simp only [selectQueriesOf, hr]
      constructor
      · intro h; cases h
      · rintro ⟨p, hp, hp2⟩
        rcases List.mem_cons.mp hp with rfl | hp
        · cases hp2
        · exact absurd (ih.mpr ⟨p, hp, hp2⟩) (by simp)

/-- When every table has at least one column, `selectQueriesOf` succeeds and
contains the selection keyed on each table's first column. -/
theorem selectQueriesOf_some_spec :
    ∀ schemas : Schemas, (∀ p ∈ schemas, p.2 ≠ []) →
      ∃ qs, selectQueriesOf schemas = some qs ∧
        ∀ t c ty cs, (t, (c, ty) :: cs) ∈ schemas → selectQuery t c ∈ qs
  | [], _ => ⟨[], rfl, by simp⟩
  | (t1, cols) :: rest, h => by
    obtain ⟨qs, hqs, hmem⟩ :=
      selectQueriesOf_some_spec rest (fun p hp => h p (List.mem_cons_of_mem _ hp))
    cases cols with
    | nil => exact absurd rfl (h (t1, []) (List.mem_cons_self _ _))
    | cons c0 cs0 =>
      obtain ⟨c1, c2⟩ := c0
      refine ⟨selectQuery t1 c1 :: qs, by simp [selectQueriesOf, hqs], ?_⟩
      intro t c ty cs hin
      rcases List.mem_cons.mp hin with heq | hin
      · injection heq with ht hcols
        injection hcols with hc0 hcs
        injection hc0 with hc hty
        rw [ht, hc]
        exact List.mem_cons_self _ _
      · exact List.mem_cons_of_mem _ (hmem t c ty cs hin)

/-! ## Claim theorems -/

/-- C1: for every schema map in which every table has at least one column,
the generated bridge SQL is the `UNION ALL` join of the per-table selections
wrapped in `CREATE OR REPLACE TABLE puppini_bridge AS ...`, and for each
table it contains `SELECT CAST(<first column> AS VARCHAR) AS _KEY_<table>,
'<table>' AS Stage FROM <table>`. -/
theorem bridge_sql_contains_each_selection (schemas : Schemas)
    (h : ∀ p ∈ schemas, p.2 ≠ []) :
    ∃ qs, selectQueriesOf schemas = some qs ∧
      generate_puppini_bridge_sql schemas =
        some ("CREATE OR REPLACE TABLE puppini_bridge AS " ++ joinSep " UNION ALL " qs) ∧
      ∀ t c ty cs, (t, (c, ty) :: cs) ∈ schemas →
        ("SELECT CAST(" ++ c ++ " AS VARCHAR) AS _KEY_" ++ t ++ ", \x27" ++ t ++
            "\x27 AS Stage FROM " ++ t).data <:+:
          ("CREATE OR REPLACE TABLE puppini_bridge AS " ++
            joinSep " UNION ALL " qs).data := by
  obtain ⟨qs, hqs, hmem⟩ := selectQueriesOf_some_spec schemas h
  refine ⟨qs, hqs, by simp [generate_puppini_bridge_sql, hqs], ?_⟩
  intro t c ty cs hin
  have h1 : (selectQuery t c).data <:+: (joinSep " UNION ALL " qs).data :=
    mem_joinSep_chars _ _ _ (hmem t c ty cs hin)
  rw [String.data_append]
  exact h1.trans (List.suffix_append _ _).isInfix

/-- Witness for C1: the scenario table `dim_product` with first column
`product_id`. -/
theorem bridge_sql_contains_each_selection_witness :
    ∃ qs, selectQueriesOf [("dim_product", [("product_id", "BIGINT"), ("name", "VARCHAR")])] =
        some qs ∧
      generate_puppini_bridge_sql
          [("dim_product", [("product_id", "BIGINT"), ("name", "VARCHAR")])] =
        some ("CREATE OR REPLACE TABLE puppini_bridge AS " ++ joinSep " UNION ALL " qs) ∧
      ∀ t c ty cs, (t, (c, ty) :: cs) ∈
          ([("dim_product", [("product_id", "BIGINT"), ("name", "VARCHAR")])] : Schemas) →
        ("SELECT CAST(" ++ c ++ " AS VARCHAR) AS _KEY_" ++ t ++ ", \x27" ++ t ++
            "\x27 AS Stage FROM " ++ t).data <:+:
          ("CREATE OR REPLACE TABLE puppini_bridge AS " ++
            joinSep " UNION ALL " qs).data :=
  bridge_sql_contains_each_selection
    [("dim_product", [("product_id", "BIGINT"), ("name", "VARCHAR")])] (by decide)

/-- C3: when the database file does not exist, schema inference returns the
`FileNotFoundError` and its boundary trace is empty: no connection is opened
and no query is executed. -/
theorem infer_missing_database_raises (fs : String → Option DBState)
    (tables : List String) (database_path : String) (h : fs database_path = none) :
    infer_schemas_and_generate fs tables database_path =
      (Except.error ("Database file \x27" ++ database_path ++ "\x27 does not exist!"),
        ([] : List DBEvent)) := by
  simp [infer_schemas_and_generate, h]

/-- Witness for C3: a filesystem with no database file at all. -/
theorem infer_missing_database_raises_witness :
    infer_schemas_and_generate (fun _ => none) ["fact_sales"] "data/sales.duckdb" =
      (Except.error ("Database file \x27" ++ "data/sales.duckdb" ++ "\x27 does not exist!"),
        ([] : List DBEvent)) :=
  infer_missing_database_raises (fun _ => none) ["fact_sales"] "data/sales.duckdb" rfl

/-- C9: bridge SQL generation is a pure function of the schema map — equal
inputs give byte-identical SQL. -/
theorem bridge_sql_deterministic (s1 s2 : Schemas) (h : s1 = s2) :
    generate_puppini_bridge_sql s1 = generate_puppini_bridge_sql s2 := by rw [h]

/-- Witness for C9 at a concrete schema map. -/
theorem bridge_sql_deterministic_witness :
    generate_puppini_bridge_sql [("dim_product", [("product_id", "BIGINT")])] =
      generate_puppini_bridge_sql [("dim_product", [("product_id", "BIGINT")])] :=
  bridge_sql_deterministic [("dim_product", [("product_id", "BIGINT")])]
    [("dim_product", [("product_id", "BIGINT")])] rfl

/-- C10: bridge SQL generation fails (the `IndexError` at
`list(columns.keys())[0]`, modelled as `none`) exactly when some table of
the schema map has an empty column mapping. -/
theorem bridge_sql_none_iff_empty_table (schemas : Schemas) :
    generate_puppini_bridge_sql schemas = none ↔ ∃ p ∈ schemas, p.2 = [] := by
  rw [generate_puppini_bridge_sql, Option.map_eq_none']
  exact selectQueriesOf_eq_none_iff schemas

/-- The load loop behaves as if the entries whose CSV file is missing were
never in the batch: they create no table, raise nothing, and processing
continues with the remaining entries. -/
theorem loadLoop_filter (env : CsvEnv) :
    ∀ (csv_files : List (String × String)) (st : DBState),
      loadLoop env csv_files st =
        loadLoop env (csv_files.filter fun p => (env.csvSchema p.2).isSome) st
  | [], _ => rfl
  | (t, p) :: rest, st => by
    cases hc : env.csvSchema p with
    | none =>
      simp only [loadLoop, hc, List.filter_cons, Option.isSome_none, Bool.false_eq_true,
        if_false]
      exact loadLoop_filter env rest st
    | some sch =>
      cases hct : createTable t sch st with
      | error e =>
        simp [loadLoop, hc, List.filter_cons, hct]
      | ok st2 =>
        simp only [loadLoop, hc, List.filter_cons, Option.isSome_some, if_true, hct]
        rw [loadLoop_filter env rest st2]

/-- C4: entries whose source file is missing are skipped without an error
and the batch continues (the loop equals the loop over only the entries
whose file exists); in particular a single missing-file entry against no
pre-existing database yields a database with zero tables, not an error. -/
theorem loader_skips_missing_files (env : CsvEnv) (csv_files : List (String × String))
    (st : DBState) (table_name csv_path database_path : String)
    (fs : String → Option DBState) (force : Bool)
    (h1 : env.csvSchema csv_path = none) (h2 : fs database_path = none) :
    loadLoop env csv_files st =
      loadLoop env (csv_files.filter fun p => (env.csvSchema p.2).isSome) st ∧
    load_csv_to_duckdb env [(table_name, csv_path)] force database_path fs =
      (Except.ok ([] : DBState), [DBEvent.connect database_path]) := by
  refine ⟨loadLoop_filter env csv_files st, ?_⟩
  simp [load_csv_to_duckdb, h2, loadLoop, h1]

/-- Witness for C4: the spec scenario `{"t1": "missing.csv"}` with no
existing database. -/
theorem loader_skips_missing_files_witness :
    loadLoop ⟨fun _ => none⟩ [("t1", "missing.csv")] [] =
      loadLoop ⟨fun _ => none⟩
        ([("t1", "missing.csv")].filter fun p => ((⟨fun _ => none⟩ : CsvEnv).csvSchema p.2).isSome)
        [] ∧
    load_csv_to_duckdb ⟨fun _ => none⟩ [("t1", "missing.csv")] false "data/sales.duckdb"
        (fun _ => none) =
      (Except.ok ([] : DBState), [DBEvent.connect "data/sales.duckdb"]) :=
  loader_skips_missing_files ⟨fun _ => none⟩ [("t1", "missing.csv")] [] "t1" "missing.csv"
    "data/sales.duckdb" (fun _ => none) false rfl rfl

/-- C5: when the database file already exists and force is not requested,
the loader opens a connection and returns the existing state unchanged; its
trace holds no executed statement, so no table is created or replaced. -/
theorem loader_existing_db_untouched (env : CsvEnv) (csv_files : List (String × String))
    (database_path : String) (fs : String → Option DBState) (st : DBState)
    (h : fs database_path = some st) :
    load_csv_to_duckdb env csv_files false database_path fs =
      (Except.ok st, [DBEvent.connect database_path]) := by
  simp [load_csv_to_duckdb, h]

/-- Witness for C5: an existing database with one loaded table. -/
theorem loader_existing_db_untouched_witness :
    load_csv_to_duckdb ⟨fun _ => none⟩ [("fact_sales", "data/fact_sales.csv")] false
        "data/sales.duckdb" (fun _ => some [("fact_sales", [("sale_id", "BIGINT")])]) =
      (Except.ok [("fact_sales", [("sale_id", "BIGINT")])],
        [DBEvent.connect "data/sales.duckdb"]) :=
  loader_existing_db_untouched ⟨fun _ => none⟩ [("fact_sales", "data/fact_sales.csv")]
    "data/sales.duckdb" (fun _ => some [("fact_sales", [("sale_id", "BIGINT")])])
    [("fact_sales", [("sale_id", "BIGINT")])] rfl

/-- C2 is a code bug: the loader's load path issues `CREATE TABLE` without
`OR REPLACE`, so with `force=True` the first run over an existing source
file succeeds and creates the table, but the second run — connecting to the
now-existing database that already holds that table — fails with the
engine's table-already-exists catalog error instead of recreating the
table, contradicting both the claimed idempotence and the loader's own
"Use 'force=True' to overwrite" message. -/
theorem loader_force_second_run_fails :
    (load_csv_to_duckdb ⟨fun p => if p = "data/t1.csv" then some [("a", "BIGINT")] else none⟩
        [("t1", "data/t1.csv")] true "data/sales.duckdb" (fun _ => none)).1 =
      Except.ok [("t1", [("a", "BIGINT")])] ∧
    (load_csv_to_duckdb ⟨fun p => if p = "data/t1.csv" then some [("a", "BIGINT")] else none⟩
        [("t1", "data/t1.csv")] true "data/sales.duckdb"
        (fun p => if p = "data/sales.duckdb" then some [("t1", [("a", "BIGINT")])] else none)).1 =
      Except.error ("Catalog Error: Table with name \"t1\" already exists!") := by
  constructor <;> rfl

/-- Where a stored line of the grouped-tables dict comes from after one
`dictAppend`: it was already stored under the same key, or it is the newly
appended value under the key just updated. -/
theorem dictAppend_provenance {α : Type} (k : String) (v : α) :
    ∀ (acc : List (String × List α)) (p : String × List α),
      p ∈ dictAppend k v acc → ∀ x ∈ p.2,
        (∃ q ∈ acc, q.1 = p.1 ∧ x ∈ q.2) ∨ (p.1 = k ∧ x = v)
  | [], p, hp, x, hx => by
    simp only [dictAppend, List.mem_singleton] at hp
    subst hp
    simp only [List.mem_singleton] at hx
    exact Or.inr ⟨rfl, hx⟩
  | a :: rest, p, hp, x, hx => by
    by_cases hk : a.1 = k
    · rw [dictAppend, if_pos hk] at hp
      rcases List.mem_cons.mp hp with rfl | hp
      · rcases List.mem_append.mp hx with h1 | h1
        · exact Or.inl ⟨a, List.mem_cons_self _ _, rfl, h1⟩
        · exact Or.inr ⟨hk, List.mem_singleton.mp h1⟩
      · exact Or.inl ⟨p, List.mem_cons_of_mem _ hp, rfl, hx⟩
    · rw [dictAppend, if_neg hk] at hp
      rcases List.mem_cons.mp hp with rfl | hp
      · exact Or.inl ⟨p, List.mem_cons_self _ _, rfl, hx⟩
      · rcases dictAppend_provenance k v rest p hp x hx with ⟨q, hq, hq1, hq2⟩ | h2
        · exact Or.inl ⟨q, List.mem_cons_of_mem _ hq, hq1, hq2⟩
        · exact Or.inr h2

/-- Where a stored line of the grouped-tables fold comes from: an entry of
the starting accumulator with the same key, or a rendered column line of one
of the processed rows for that table. -/
theorem groupTables_fold_provenance :
    ∀ (rows : List (String × String × String)) (acc : List (String × List String))
      (p : String × List String),
      p ∈ rows.foldl (fun acc r => dictAppend r.1 (columnLine r.2.1 r.2.2) acc) acc →
      ∀ x ∈ p.2,
        (∃ q ∈ acc, q.1 = p.1 ∧ x ∈ q.2) ∨
          ∃ r ∈ rows, r.1 = p.1 ∧ x = columnLine r.2.1 r.2.2
  | [], _, p, hp, x, hx => Or.inl ⟨p, hp, rfl, hx⟩
  | r0 :: rows, acc, p, hp, x, hx => by
    rcases groupTables_fold_provenance rows
        (dictAppend r0.1 (columnLine r0.2.1 r0.2.2) acc) p hp x hx with
      ⟨q, hq, hq1, hq2⟩ | ⟨r, hr, hr1, hr2⟩
    · rcases dictAppend_provenance r0.1 (columnLine r0.2.1 r0.2.2) acc q hq x hq2 with
        ⟨q2, hq2m, e1, e2⟩ | ⟨e1, e2⟩
      · exact Or.inl ⟨q2, hq2m, e1.trans hq1, e2⟩
      · exact Or.inr ⟨r0, List.mem_cons_self _ _, e1.symm.trans hq1, e2⟩
    · exact Or.inr ⟨r, List.mem_cons_of_mem _ hr, hr1, hr2⟩

/-- C6: the diagram text is the newline join of the `erDiagram` header, one
block per grouped table — a header line with the table name, one indented
line per column, a closing line — and one relationship line per foreign-key
tuple annotated `"<from_column> -> <to_column>"`; the text begins with the
header, and each stored column line is `<lowercased type> <column name>`
for some row of the column listing belonging to that table. -/
theorem erd_rendering_structure (table_columns : List (String × String × String))
    (foreign_keys : List (String × String × String × String)) :
    generate_mermaid_erd table_columns foreign_keys =
      joinSep "\n" ("erDiagram" ::
        ((groupTables table_columns).flatMap (fun p =>
            ("  " ++ p.1 ++ " \x7b") :: (p.2.map (fun col => "    " ++ col) ++ ["  \x7d"])) ++
          foreign_keys.map (fun fk =>
            "  " ++ fk.1 ++ " \x7do--o\x7b " ++ fk.2.2.1 ++ " : \"" ++ fk.2.1 ++ " -> " ++
              fk.2.2.2 ++ "\""))) ∧
    "erDiagram".data <+: (generate_mermaid_erd table_columns foreign_keys).data ∧
    ∀ p ∈ groupTables table_columns, ∀ line ∈ p.2,
      ∃ r ∈ table_columns, r.1 = p.1 ∧ line = r.2.2.toLower ++ " " ++ r.2.1 := by
  refine ⟨rfl, ?_, ?_⟩
  · exact head_joinSep_prefix "\n"
      "erDiagram" ((groupTables table_columns).flatMap (fun p => tableBlock p.1 p.2) ++
        foreign_keys.map relationshipLine)
  · intro p hp line hline
    rcases groupTables_fold_provenance table_columns [] p hp line hline with
      ⟨q, hq, _, _⟩ | ⟨r, hr, hr1, hr2⟩
    · cases hq
    · exact ⟨r, hr, hr1, hr2⟩

/-- C8: every foreign-key tuple of the relationship result is rendered as a
relationship line of the diagram, with no validation against the set of
rendered tables — one line per tuple unconditionally, so a tuple whose
tables have no column entries still yields its (dangling) edge line. -/
theorem erd_renders_every_fk (table_columns : List (String × String × String))
    (foreign_keys : List (String × String × String × String))
    (fk : String × String × String × String) (h : fk ∈ foreign_keys) :
    mermaid_diagram table_columns foreign_keys =
      ("erDiagram" :: (groupTables table_columns).flatMap (fun p => tableBlock p.1 p.2)) ++
        foreign_keys.map relationshipLine ∧
    ("  " ++ fk.1 ++ " \x7do--o\x7b " ++ fk.2.2.1 ++ " : \"" ++ fk.2.1 ++ " -> " ++
        fk.2.2.2 ++ "\"").data <:+:
      (generate_mermaid_erd table_columns foreign_keys).data := by
  refine ⟨rfl, ?_⟩
  exact mem_joinSep_chars "\n" (relationshipLine fk) (mermaid_diagram table_columns foreign_keys)
    (List.mem_append_right _ (List.mem_map_of_mem relationshipLine h))

/-- Witness for C8: a foreign key into table `ghost`, which has no entry in
the column listing, still renders its edge line. -/
theorem erd_renders_every_fk_witness :
    mermaid_diagram [("a", "x", "INTEGER")] [("a", "x", "ghost", "y")] =
      ("erDiagram" :: (groupTables [("a", "x", "INTEGER")]).flatMap
          (fun p => tableBlock p.1 p.2)) ++
        [("a", "x", "ghost", "y")].map relationshipLine ∧
    ("  " ++ "a" ++ " \x7do--o\x7b " ++ "ghost" ++ " : \"" ++ "x" ++ " -> " ++
        "y" ++ "\"").data <:+:
      (generate_mermaid_erd [("a", "x", "INTEGER")] [("a", "x", "ghost", "y")]).data :=
  erd_renders_every_fk [("a", "x", "INTEGER")] [("a", "x", "ghost", "y")]
    ("a", "x", "ghost", "y") (List.mem_singleton.mpr rfl)

/-- The columns `PRAGMA table_info` reports for `t` (empty when `t` is not
in the database). -/
def tableCols (st : DBState) (t : String) : TableSchema :=
  ((st.find? (fun p => p.1 = t)).map Prod.snd).getD []

/-- Inserting a key not yet in the dict appends it at the end. -/
theorem dictInsert_of_not_mem {α : Type} (k : String) (v : α) :
    ∀ l : List (String × α), k ∉ l.map Prod.fst → dictInsert k v l = l ++ [(k, v)]
  | [], _ => rfl
  | p :: rest, h => by
    simp only [List.map_cons, List.mem_cons, not_or] at h
    rw [dictInsert, if_neg (fun e => h.1 e.symm), dictInsert_of_not_mem k v rest h.2,
      List.cons_append]

/-- A table present in the database introspects to its stored columns. -/
theorem pragma_of_found (st : DBState) (t : String)
    (h : (st.find? (fun p => p.1 = t)).isSome = true) :
    pragma_table_info st t = Except.ok (tableCols st t) := by
  unfold pragma_table_info tableCols
  cases hf : st.find? (fun p => p.1 = t) with
  | none => rw [hf] at h; cases h
  | some p => simp

/-- On pairwise-distinct table names all present in the database, the
inference loop extends the accumulator with one schema entry per table, in
input order. -/
theorem inferLoop_ordered (st : DBState) :
    ∀ (tables : List String) (acc : Schemas), tables.Nodup →
      (∀ t ∈ tables, (st.find? (fun p => p.1 = t)).isSome = true) →
      (∀ t ∈ tables, t ∉ acc.map Prod.fst) →
      (inferLoop st tables acc).1 =
        Except.ok (acc ++ tables.map fun t => (t, tableCols st t))
  | [], acc, _, _, _ => by simp [inferLoop]
  | t :: rest, acc, hnd, hfound, hacc => by
    obtain ⟨ht, hrest⟩ := List.nodup_cons.mp hnd
    have hp := pragma_of_found st t (hfound t (List.mem_cons_self _ _))
    simp only [inferLoop, hp]
    rw [dictInsert_of_not_mem t _ acc (hacc t (List.mem_cons_self _ _))]
    rw [inferLoop_ordered st rest (acc ++ [(t, tableCols st t)]) hrest
      (fun r hr => hfound r (List.mem_cons_of_mem _ hr))
      (fun r hr => by
        simp only [List.map_append, List.mem_append, List.map_cons, List.map_nil,
          List.mem_singleton, not_or]
        exact ⟨hacc r (List.mem_cons_of_mem _ hr), fun e => ht (e ▸ hr)⟩)]
    simp [List.append_assoc]

/-- `selectQueriesOf` on a schema map in input order yields the per-table
selections in the same order, keyed on each table's first column. -/
theorem selectQueriesOf_map (st : DBState) :
    ∀ tables : List String, (∀ t ∈ tables, tableCols st t ≠ []) →
      selectQueriesOf (tables.map fun t => (t, tableCols st t)) =
        some (tables.map fun t =>
          selectQuery t (((tableCols st t).map Prod.fst).headD ""))
  | [], _ => rfl
  | t :: rest, h => by
    have ih := selectQueriesOf_map st rest (fun r hr => h r (List.mem_cons_of_mem _ hr))
    cases hc : tableCols st t with
    | nil => exact absurd hc (h t (List.mem_cons_self _ _))
    | cons c0 cs0 =>
      obtain ⟨c1, c2⟩ := c0
      simp only [List.map_cons, selectQueriesOf, hc, ih]
      simp [hc]

/-- C7 (amended): for every list of pairwise-distinct table names present in
the database, the inferred schema map lists the tables in input order, and
— when each table has at least one column — the per-table selections of the
generated union appear in that same order, the i-th selection built from
the i-th input table. -/
theorem infer_preserves_input_order (fs : String → Option DBState) (st : DBState)
    (tables : List String) (database_path : String)
    (h1 : fs database_path = some st) (h2 : tables.Nodup)
    (h3 : ∀ t ∈ tables, (st.find? (fun p => p.1 = t)).isSome = true) :
    (infer_schemas_and_generate fs tables database_path).1 =
      Except.ok (tables.map fun t => (t, tableCols st t)) ∧
    ((∀ t ∈ tables, tableCols st t ≠ []) →
      selectQueriesOf (tables.map fun t => (t, tableCols st t)) =
        some (tables.map fun t =>
          selectQuery t (((tableCols st t).map Prod.fst).headD ""))) := by
  constructor
  · rw [infer_schemas_and_generate, h1]
    exact inferLoop_ordered st tables [] h2 h3 (by simp)
  · exact selectQueriesOf_map st tables

/-- Witness for C7's amended statement: two distinct tables, inferred and
unioned in input order. -/
theorem infer_preserves_input_order_witness :
    (infer_schemas_and_generate
        (fun _ => some [("t1", [("a", "INTEGER")]), ("t2", [("b", "VARCHAR")])])
        ["t1", "t2"] "data/sales.duckdb").1 =
      Except.ok (["t1", "t2"].map fun t =>
        (t, tableCols [("t1", [("a", "INTEGER")]), ("t2", [("b", "VARCHAR")])] t)) ∧
    ((∀ t ∈ ["t1", "t2"],
        tableCols [("t1", [("a", "INTEGER")]), ("t2", [("b", "VARCHAR")])] t ≠ []) →
      selectQueriesOf (["t1", "t2"].map fun t =>
          (t, tableCols [("t1", [("a", "INTEGER")]), ("t2", [("b", "VARCHAR")])] t)) =
        some (["t1", "t2"].map fun t =>
          selectQuery t
            (((tableCols [("t1", [("a", "INTEGER")]), ("t2", [("b", "VARCHAR")])] t).map
              Prod.fst).headD ""))) :=
  infer_preserves_input_order
    (fun _ => some [("t1", [("a", "INTEGER")]), ("t2", [("b", "VARCHAR")])])
    [("t1", [("a", "INTEGER")]), ("t2", [("b", "VARCHAR")])]
    ["t1", "t2"] "data/sales.duckdb" rfl (by decide) (by decide)

/-- Counterexample to C7 as stated: the claim quantifies over every list of
table names, but the schema map is a Python dict, so a duplicated table name
collapses to one entry — with input `["t", "t"]` the inferred map has one
entry and the union has one branch, so no branch corresponds to the second
input table. -/
theorem infer_duplicate_tables_counterexample :
    (infer_schemas_and_generate (fun _ => some [("t", [("a", "INTEGER")])])
        ["t", "t"] "data/sales.duckdb").1 =
      Except.ok [("t", [("a", "INTEGER")])] ∧
    selectQueriesOf [("t", [("a", "INTEGER")])] = some [selectQuery "t" "a"] ∧
    [selectQuery "t" "a"].length ≠ (["t", "t"] : List String).length := by
  exact ⟨rfl, rfl, by decide⟩

end PuppiniBridge
